import Mathlib

/-!
Shallow embedding of the LG soundbar media-player adapter
(`homeassistant/components/lg_soundbar/media_player.py`).

The Python class `LGDevice` keeps a mutable per-device snapshot in instance
attributes and merges inbound event dictionaries into it.  We embed:

* the snapshot as the structure `LGState` (one field per `self._*` attribute
  the event path touches; `_attr_state` is the power state, `_attr_name` the
  display name, initially unset);
* an inbound payload dictionary as `EventData`, a record with one `Option`
  field per key the code ever reads — `some v` models the key being present
  with value `v`, `none` models the key being absent (`key in data` becomes
  `.isSome`, an unguarded `data[key]` on an absent key is a Python
  `KeyError`);
* event handlers as state transformers; `handle_spk_list_view_info_event`
  and `handle_event` additionally return a `Bool` that is `true` exactly when
  the handler ran to completion (so, for `handle_event`, exactly when
  `self.schedule_update_ha_state()` — the state-changed notification — was
  reached).  `false` models the `KeyError` escaping; Python mutations made
  before the raise persist, so the returned state includes them;
* Python floats as `ℚ` (exact arithmetic; the claims under study only involve
  values where float evaluation is exact), Python ints as `ℤ`, and Python
  `int()` on a float as truncation toward zero.

The two protocol name tables `temescal.functions` and `temescal.equalisers`
live in the third-party `temescal` library, outside this repository.
Modelled from the spec: the spec describes them only as static ordered lists
of canonical names supplied by the protocol collaborator, so every
definition that indexes into a table takes the table as an explicit
`List String` parameter.
-/

/-- Power state of the media player; the source only ever assigns
`MediaPlayerState.ON` and `MediaPlayerState.OFF` to `self._attr_state`. -/
inductive MediaPlayerState where
  | on : MediaPlayerState
  | off : MediaPlayerState
  deriving DecidableEq, Repr

/-- The payload dictionary of an inbound event, restricted to the keys the
source ever reads.  `some v` means the key is present with value `v`;
`none` means it is absent.  Keys the code never mentions cannot influence
any handler and are omitted. -/
structure EventData where
  i_bass : Option Int := none
  i_treble : Option Int := none
  ai_eq_list : Option (List Int) := none
  i_curr_eq : Option Int := none
  i_vol : Option Int := none
  i_vol_min : Option Int := none
  i_vol_max : Option Int := none
  i_curr_func : Option Int := none
  b_powerstatus : Option Bool := none
  b_power_status : Option Bool := none
  ai_func_list : Option (List Int) := none
  i_rear_min : Option Int := none
  i_rear_max : Option Int := none
  i_rear_level : Option Int := none
  i_woofer_min : Option Int := none
  i_woofer_max : Option Int := none
  i_woofer_level : Option Int := none
  s_user_name : Option String := none
  deriving DecidableEq, Repr

/-- An inbound message: `response["msg"]` and `response["data"]`. -/
structure Response where
  msg : String
  data : EventData
  deriving DecidableEq, Repr

/-- The device snapshot: the `self._*` attributes of `LGDevice` that the
event path and the read accessors touch. -/
structure LGState where
  attr_state : MediaPlayerState
  volume : Int
  volume_min : Int
  volume_max : Int
  function : Int
  functions : List Int
  equaliser : Int
  equalisers : List Int
  mute : Int
  rear_volume : Int
  rear_volume_min : Int
  rear_volume_max : Int
  woofer_volume : Int
  woofer_volume_min : Int
  woofer_volume_max : Int
  bass : Int
  treble : Int
  attr_name : Option String
  deriving DecidableEq, Repr

/-- The snapshot produced by `LGDevice.__init__` (together with the class
attribute `_attr_state = MediaPlayerState.ON`); `_attr_name` is not set, and
`self._mute = 0` is the Python integer zero, not a boolean. -/
def initState : LGState where
  attr_state := MediaPlayerState.on
  volume := 0
  volume_min := 0
  volume_max := 0
  function := -1
  functions := []
  equaliser := -1
  equalisers := []
  mute := 0
  rear_volume := 0
  rear_volume_min := 0
  rear_volume_max := 0
  woofer_volume := 0
  woofer_volume_min := 0
  woofer_volume_max := 0
  bass := 0
  treble := 0
  attr_name := none

/-- `LGDevice.get_value(data, key, default_value)`:
`data[key] if key in data else default_value`.  The `(data, key)` pair is
embedded as the corresponding `Option` field of `EventData`. -/
def get_value {α : Type} (entry : Option α) (default_value : α) : α :=
  match entry with
  | some v => v
  | none => default_value

/-- `LGDevice.handle_eq_view_info_event`. -/
def handle_eq_view_info_event (data : EventData) (s : LGState) : LGState :=
  { s with
    bass := get_value data.i_bass s.bass
    treble := get_value data.i_treble s.treble
    equalisers := get_value data.ai_eq_list s.equalisers
    equaliser := get_value data.i_curr_eq s.equaliser }

/-- `LGDevice.handle_spk_list_view_info_event`.  The source checks
membership of the key `"b_powerstatus"` but then reads the value of the
different key `"b_power_status"`; when the first is present and the second
absent that read is a `KeyError`.  The returned `Bool` is `true` iff the
handler completed without raising; on a raise the four assignments already
made persist in the returned state. -/
def handle_spk_list_view_info_event (data : EventData) (s : LGState) :
    LGState × Bool :=
  let s := { s with
    volume := get_value data.i_vol s.volume
    volume_min := get_value data.i_vol_min s.volume_min
    volume_max := get_value data.i_vol_max s.volume_max
    function := get_value data.i_curr_func s.function }
  if data.b_powerstatus.isSome then
    match data.b_power_status with
    | none => (s, false)
    | some b =>
        if b then ({ s with attr_state := MediaPlayerState.on }, true)
        else ({ s with attr_state := MediaPlayerState.off }, true)
  else
    (s, true)

/-- The first four assignments of `handle_spk_list_view_info_event` (the
retain-or-overwrite merge of `i_vol`, `i_vol_min`, `i_vol_max`,
`i_curr_func`), named so the characterization of the SPK handler can be
stated without repeating the record literal. -/
def spk_merge (data : EventData) (s : LGState) : LGState :=
  { s with
    volume := data.i_vol.getD s.volume
    volume_min := data.i_vol_min.getD s.volume_min
    volume_max := data.i_vol_max.getD s.volume_max
    function := data.i_curr_func.getD s.function }

/-- `LGDevice.handle_func_view_info_event`. -/
def handle_func_view_info_event (data : EventData) (s : LGState) : LGState :=
  { s with
    function := get_value data.i_curr_func s.function
    functions := get_value data.ai_func_list s.functions }

/-- `LGDevice.handle_setting_view_info_event`. -/
def handle_setting_view_info_event (data : EventData) (s : LGState) :
    LGState :=
  { s with
    rear_volume_min := get_value data.i_rear_min s.rear_volume_min
    rear_volume_max := get_value data.i_rear_max s.rear_volume_max
    rear_volume := get_value data.i_rear_level s.rear_volume
    woofer_volume_min := get_value data.i_woofer_min s.woofer_volume_min
    woofer_volume_max := get_value data.i_woofer_max s.woofer_volume_max
    woofer_volume := get_value data.i_woofer_level s.woofer_volume
    equaliser := get_value data.i_curr_eq s.equaliser
    attr_name :=
      match data.s_user_name with
      | some n => some n
      | none => s.attr_name }

/-- `LGDevice.handle_event`.  Dispatch on `response["msg"]`, then call
`self.schedule_update_ha_state()`.  The `Bool` component is `true` iff the
notification was reached (the SPK handler can raise `KeyError`, in which
case the exception propagates before the notification and the already-made
assignments persist). -/
def handle_event (response : Response) (s : LGState) : LGState × Bool :=
  let data := response.data
  if response.msg = "EQ_VIEW_INFO" then
    (handle_eq_view_info_event data s, true)
  else if response.msg = "SPK_LIST_VIEW_INFO" then
    handle_spk_list_view_info_event data s
  else if response.msg = "FUNC_VIEW_INFO" then
    (handle_func_view_info_event data s, true)
  else if response.msg = "SETTING_VIEW_INFO" then
    (handle_setting_view_info_event data s, true)
  else
    (s, true)

/-- The snapshot after `handle_event` (dropping the notification flag). -/
def applyEvent (response : Response) (s : LGState) : LGState :=
  (handle_event response s).1

/-- The snapshot after a whole inbound message sequence, oldest first. -/
def applyEvents (responses : List Response) (s : LGState) : LGState :=
  responses.foldl (fun t r => applyEvent r t) s

/-- `LGDevice.volume_level`: `self._volume / self._volume_max` when
`self._volume_max != 0`, else `0` (Python true division, embedded in `ℚ`). -/
def volume_level (s : LGState) : ℚ :=
  if s.volume_max ≠ 0 then (s.volume : ℚ) / (s.volume_max : ℚ) else 0

/-- `LGDevice.is_volume_muted`: returns `self._mute` unconverted — the
construction-time value is the integer `0`, so the result type is `ℤ`. -/
def is_volume_muted (s : LGState) : Int :=
  s.mute

/-- Python list subscript `l[i]` for a possibly negative index: nonnegative
indices below the length resolve directly, negative indices at least
`-len(l)` wrap around from the end, anything else is an `IndexError`
(`none`). -/
def pyListGet (l : List String) (i : Int) : Option String :=
  if 0 ≤ i then l.get? i.toNat
  else if 0 ≤ i + l.length then l.get? (i + l.length).toNat
  else none

/-- The loop of `sound_mode_list` / `source_list`: for each stored index,
if `index < len(table)` append `table[index]`, else skip.  A wrap-below
`IndexError` aborts the whole property (`none`). -/
def collectNames (table : List String) : List Int → Option (List String)
  | [] => some []
  | i :: rest =>
      if i < (table.length : Int) then
        match pyListGet table i with
        | some name => (collectNames table rest).map (fun l => name :: l)
        | none => none
      else
        collectNames table rest

/-- `LGDevice.sound_mode_list`, parameterised by the external table
`temescal.equalisers`: collect resolvable names, then return
`sorted(modes)`. -/
def sound_mode_list (equalisers_table : List String) (s : LGState) :
    Option (List String) :=
  (collectNames equalisers_table s.equalisers).map
    (fun l => l.insertionSort (· ≤ ·))

/-- `LGDevice.source_list`, parameterised by the external table
`temescal.functions`. -/
def source_list (functions_table : List String) (s : LGState) :
    Option (List String) :=
  (collectNames functions_table s.functions).map
    (fun l => l.insertionSort (· ≤ ·))

/-- An outbound fire-and-forget command to the device. -/
inductive Command where
  | setVolume : Int → Command
  | setMute : Bool → Command
  | setFunc : Nat → Command
  | setEq : Nat → Command
  | setPower : Bool → Command
  deriving DecidableEq, Repr

/-- Python `int()` on a rational: truncation toward zero. -/
def pyInt (q : ℚ) : Int :=
  if 0 ≤ q then ⌊q⌋ else ⌈q⌉

/-- `LGDevice.set_volume_level`: `volume = volume * self._volume_max;
self._device.set_volume(int(volume))`. -/
def set_volume_level (volume_max : Int) (level : ℚ) : Command :=
  Command.setVolume (pyInt (level * (volume_max : ℚ)))

/-- Python `list.index(x)`: position of the first occurrence, or a
`ValueError` (`none`) when `x` does not occur. -/
def list_index (l : List String) (x : String) : Option Nat :=
  match l with
  | [] => none
  | y :: ys =>
      if y = x then some 0 else (list_index ys x).map (fun n => n + 1)

/-- `LGDevice.select_source`: `self._device.set_func(
temescal.functions.index(source))`.  `none` models the `ValueError`
escaping before any command is sent. -/
def select_source (functions_table : List String) (source : String) :
    Option Command :=
  (list_index functions_table source).map Command.setFunc

/-- `LGDevice.select_sound_mode`: `self._device.set_eq(
temescal.equalisers.index(sound_mode))`. -/
def select_sound_mode (equalisers_table : List String) (sound_mode : String) :
    Option Command :=
  (list_index equalisers_table sound_mode).map Command.setEq

@[simp]
theorem get_value_some {α : Type} (v d : α) : get_value (some v) d = v := rfl

@[simp]
theorem get_value_none {α : Type} (d : α) : get_value none d = d := rfl

theorem get_value_eq_getD {α : Type} (o : Option α) (d : α) :
    get_value o d = o.getD d := by
  cases o <;> rfl

theorem get_value_idem {α : Type} (o : Option α) (d : α) :
    get_value o (get_value o d) = get_value o d := by
  cases o <;> rfl

theorem handle_event_eq_view (d : EventData) (s : LGState) :
    handle_event ⟨"EQ_VIEW_INFO", d⟩ s = (handle_eq_view_info_event d s, true) :=
  rfl

theorem handle_event_spk_view (d : EventData) (s : LGState) :
    handle_event ⟨"SPK_LIST_VIEW_INFO", d⟩ s =
      handle_spk_list_view_info_event d s :=
  rfl

theorem handle_event_func_view (d : EventData) (s : LGState) :
    handle_event ⟨"FUNC_VIEW_INFO", d⟩ s =
      (handle_func_view_info_event d s, true) :=
  rfl

theorem handle_event_setting_view (d : EventData) (s : LGState) :
    handle_event ⟨"SETTING_VIEW_INFO", d⟩ s =
      (handle_setting_view_info_event d s, true) :=
  rfl

theorem handle_event_not_recognized (r : Response) (s : LGState)
    (h1 : r.msg ≠ "EQ_VIEW_INFO") (h2 : r.msg ≠ "SPK_LIST_VIEW_INFO")
    (h3 : r.msg ≠ "FUNC_VIEW_INFO") (h4 : r.msg ≠ "SETTING_VIEW_INFO") :
    handle_event r s = (s, true) := by
  simp [handle_event, h1, h2, h3, h4]

theorem spk_mute (d : EventData) (s : LGState) :
    (handle_spk_list_view_info_event d s).1.mute = s.mute := by
  unfold handle_spk_list_view_info_event
  cases hp : d.b_powerstatus <;> simp [hp]
  cases hv : d.b_power_status <;> simp [hv]
  rename_i b
  cases b <;> simp

/-- Claim C2: an `SPK_LIST_VIEW_INFO` message whose payload contains key
`b_power_status` with value `false` but does not contain key `b_powerstatus`
leaves the power state unchanged from its pre-event value — the presence
check is on `b_powerstatus` only, so the power branch is skipped. -/
theorem spk_power_value_key_alone_retains_power (s : LGState) (d : EventData)
    (habs : d.b_powerstatus = none) (_hval : d.b_power_status = some false) :
    (handle_event ⟨"SPK_LIST_VIEW_INFO", d⟩ s).1.attr_state = s.attr_state := by
  simp [handle_event, handle_spk_list_view_info_event, habs]

theorem spk_power_value_key_alone_retains_power_witness :
    (handle_event ⟨"SPK_LIST_VIEW_INFO", { b_power_status := some false }⟩
        initState).1.attr_state = initState.attr_state :=
  spk_power_value_key_alone_retains_power initState
    { b_power_status := some false } rfl rfl

/-- Claim C10: an `SPK_LIST_VIEW_INFO` message whose payload contains key
`b_powerstatus` but not key `b_power_status` reaches the unguarded lookup of
the absent key `b_power_status`; its error branch — a Python `KeyError` —
is taken rather than the retain-on-absence rule (the `false` flag models
the exception propagating out of the handler). -/
theorem spk_membership_key_alone_raises_keyerror (s : LGState) (d : EventData)
    (hpres : d.b_powerstatus.isSome = true) (habs : d.b_power_status = none) :
    (handle_event ⟨"SPK_LIST_VIEW_INFO", d⟩ s).2 = false := by
  simp [handle_event, handle_spk_list_view_info_event, hpres, habs]

theorem spk_membership_key_alone_raises_keyerror_witness :
    (handle_event ⟨"SPK_LIST_VIEW_INFO", { b_powerstatus := some true }⟩
        initState).2 = false :=
  spk_membership_key_alone_raises_keyerror initState
    { b_powerstatus := some true } rfl rfl

theorem list_index_eq_none_of_not_mem (l : List String) (x : String)
    (h : x ∉ l) : list_index l x = none := by
  induction l with
  | nil => rfl
  | cons y ys ih =>
      simp only [List.mem_cons, not_or] at h
      simp [list_index, ih h.2, Ne.symm h.1]

/-- Claim C6: for every name absent from the corresponding static lookup
table, `select_source` and `select_sound_mode` fail with the lookup error of
`list.index` (the `NotFound` error, `none` here) before any command is
produced; the snapshot is untouched since neither method reads or writes
it. -/
theorem unknown_name_sends_no_command (functions_table equalisers_table : List String)
    (name : String) (hf : name ∉ functions_table) (he : name ∉ equalisers_table) :
    select_source functions_table name = none ∧
      select_sound_mode equalisers_table name = none := by
  constructor
  · simp [select_source, list_index_eq_none_of_not_mem _ _ hf]
  · simp [select_sound_mode, list_index_eq_none_of_not_mem _ _ he]

theorem unknown_name_sends_no_command_witness :
    select_source ["wifi", "optical"] "NoSuchInput" = none ∧
      select_sound_mode ["standard", "bass"] "NoSuchInput" = none :=
  unknown_name_sends_no_command ["wifi", "optical"] ["standard", "bass"]
    "NoSuchInput" (by decide) (by decide)

theorem applyEvent_mute (r : Response) (s : LGState) :
    (applyEvent r s).mute = s.mute := by
  rcases r with ⟨m, d⟩
  by_cases h1 : m = "EQ_VIEW_INFO"
  · simp [applyEvent, handle_event, h1, handle_eq_view_info_event]
  by_cases h2 : m = "SPK_LIST_VIEW_INFO"
  · subst h2
    simp only [applyEvent, handle_event_spk_view]
    exact spk_mute d s
  by_cases h3 : m = "FUNC_VIEW_INFO"
  · simp [applyEvent, handle_event, h1, h2, h3, handle_func_view_info_event]
  by_cases h4 : m = "SETTING_VIEW_INFO"
  · simp [applyEvent, handle_event, h1, h2, h3, h4,
      handle_setting_view_info_event]
  · simp [applyEvent, handle_event, h1, h2, h3, h4]

theorem applyEvents_mute (rs : List Response) (s : LGState) :
    (applyEvents rs s).mute = s.mute := by
  induction rs generalizing s with
  | nil => rfl
  | cons r rs ih =>
      calc (applyEvents (r :: rs) s).mute
          = (applyEvents rs (applyEvent r s)).mute := rfl
        _ = (applyEvent r s).mute := ih (applyEvent r s)
        _ = s.mute := applyEvent_mute r s

/-- Claim C9: no event handler ever writes the muted field — after every
sequence of inbound messages of any kinds, `is_volume_muted` still returns
the construction-time default, the integer `0`. -/
theorem mute_never_written (rs : List Response) :
    is_volume_muted (applyEvents rs initState) = 0 := by
  simp [is_volume_muted, applyEvents_mute, initState]

theorem eq_view_idem (d : EventData) (s : LGState) :
    handle_eq_view_info_event d (handle_eq_view_info_event d s) =
      handle_eq_view_info_event d s := by
  simp [handle_eq_view_info_event, get_value_idem]

theorem func_view_idem (d : EventData) (s : LGState) :
    handle_func_view_info_event d (handle_func_view_info_event d s) =
      handle_func_view_info_event d s := by
  simp [handle_func_view_info_event, get_value_idem]

theorem setting_view_idem (d : EventData) (s : LGState) :
    handle_setting_view_info_event d (handle_setting_view_info_event d s) =
      handle_setting_view_info_event d s := by
  cases hn : d.s_user_name <;>
    simp [handle_setting_view_info_event, get_value_idem, hn]

theorem spk_view_idem (d : EventData) (s : LGState) :
    (handle_spk_list_view_info_event d
        (handle_spk_list_view_info_event d s).1).1 =
      (handle_spk_list_view_info_event d s).1 := by
  unfold handle_spk_list_view_info_event
  cases hp : d.b_powerstatus <;> simp [hp, get_value_idem]
  cases hv : d.b_power_status <;> simp [hv, get_value_idem]
  rename_i b
  cases b <;> simp [get_value_idem]

/-- Claim C8: the merge performed by `handle_event` is idempotent — applying
the same message twice yields the same snapshot as applying it once, for
every snapshot and every message, including the `KeyError` path of the SPK
handler. -/
theorem handle_event_idempotent (r : Response) (s : LGState) :
    applyEvent r (applyEvent r s) = applyEvent r s := by
  rcases r with ⟨m, d⟩
  by_cases h1 : m = "EQ_VIEW_INFO"
  · subst h1
    simp only [applyEvent, handle_event_eq_view]
    exact eq_view_idem d s
  by_cases h2 : m = "SPK_LIST_VIEW_INFO"
  · subst h2
    simp only [applyEvent, handle_event_spk_view]
    exact spk_view_idem d s
  by_cases h3 : m = "FUNC_VIEW_INFO"
  · subst h3
    simp only [applyEvent, handle_event_func_view]
    exact func_view_idem d s
  by_cases h4 : m = "SETTING_VIEW_INFO"
  · subst h4
    simp only [applyEvent, handle_event_setting_view]
    exact setting_view_idem d s
  · simp [applyEvent, handle_event_not_recognized ⟨m, d⟩ s h1 h2 h3 h4]

/-- Claim C1 is false as stated: an `SPK_LIST_VIEW_INFO` message with
payload `{b_powerstatus: true, b_power_status: false}` flips the power
state from ON to OFF although power lies outside the kind's declared
retain-or-overwrite field set (volume, volume_min, volume_max,
current_function — all untouched here), and the value written is read from
a different key than the one whose presence was checked. -/
theorem spk_event_modifies_power_outside_declared_set :
    (applyEvent ⟨"SPK_LIST_VIEW_INFO",
        { b_powerstatus := some true, b_power_status := some false }⟩
      initState).attr_state = MediaPlayerState.off ∧
    initState.attr_state = MediaPlayerState.on ∧
    (applyEvent ⟨"SPK_LIST_VIEW_INFO",
        { b_powerstatus := some true, b_power_status := some false }⟩
      initState).volume = initState.volume ∧
    (applyEvent ⟨"SPK_LIST_VIEW_INFO",
        { b_powerstatus := some true, b_power_status := some false }⟩
      initState).volume_min = initState.volume_min ∧
    (applyEvent ⟨"SPK_LIST_VIEW_INFO",
        { b_powerstatus := some true, b_power_status := some false }⟩
      initState).volume_max = initState.volume_max ∧
    (applyEvent ⟨"SPK_LIST_VIEW_INFO",
        { b_powerstatus := some true, b_power_status := some false }⟩
      initState).function = initState.function := by
  decide

/-- Claim C1 (amended): for every recognized event kind, `handle_event`
performs exactly the per-kind retain-or-overwrite merge — each field of the
kind's field set is set to the payload value when the corresponding key is
present and keeps its pre-event value when the key is absent, and fields
outside the set are unmodified — except that `SPK_LIST_VIEW_INFO`
additionally writes the power state: when key `b_powerstatus` is present,
power is set from the value of the other key `b_power_status` (ON if true,
OFF if false), and its absence then raises `KeyError`. -/
theorem handle_event_kind_merge_characterization (d : EventData) (s : LGState) :
    handle_event ⟨"EQ_VIEW_INFO", d⟩ s =
      ({ s with
          bass := d.i_bass.getD s.bass
          treble := d.i_treble.getD s.treble
          equalisers := d.ai_eq_list.getD s.equalisers
          equaliser := d.i_curr_eq.getD s.equaliser }, true) ∧
    handle_event ⟨"FUNC_VIEW_INFO", d⟩ s =
      ({ s with
          function := d.i_curr_func.getD s.function
          functions := d.ai_func_list.getD s.functions }, true) ∧
    handle_event ⟨"SETTING_VIEW_INFO", d⟩ s =
      ({ s with
          rear_volume_min := d.i_rear_min.getD s.rear_volume_min
          rear_volume_max := d.i_rear_max.getD s.rear_volume_max
          rear_volume := d.i_rear_level.getD s.rear_volume
          woofer_volume_min := d.i_woofer_min.getD s.woofer_volume_min
          woofer_volume_max := d.i_woofer_max.getD s.woofer_volume_max
          woofer_volume := d.i_woofer_level.getD s.woofer_volume
          equaliser := d.i_curr_eq.getD s.equaliser
          attr_name := (d.s_user_name.map some).getD s.attr_name }, true) ∧
    handle_event ⟨"SPK_LIST_VIEW_INFO", d⟩ s =
      (match d.b_powerstatus, d.b_power_status with
       | none, _ => (spk_merge d s, true)
       | some _, none => (spk_merge d s, false)
       | some _, some b =>
           ({ spk_merge d s with
               attr_state :=
                 if b then MediaPlayerState.on else MediaPlayerState.off },
            true)) := by
  refine ⟨?_, ?_, ?_, ?_⟩
  · simp [handle_event_eq_view, handle_eq_view_info_event, get_value_eq_getD]
  · simp [handle_event_func_view, handle_func_view_info_event,
      get_value_eq_getD]
  · cases hn : d.s_user_name <;>
      simp [handle_event_setting_view, handle_setting_view_info_event,
        get_value_eq_getD, hn]
  · rw [handle_event_spk_view]
    unfold handle_spk_list_view_info_event
    cases hp : d.b_powerstatus <;> cases hv : d.b_power_status <;>
      simp [hp, hv, spk_merge, get_value_eq_getD]
    rename_i b
    cases b <;> simp

/-- Claim C7 is false in its "the notification is invoked after every
message of any kind" part: an `SPK_LIST_VIEW_INFO` message whose payload
contains `b_powerstatus` but not `b_power_status` raises `KeyError` inside
the handler, so `handle_event` never reaches
`self.schedule_update_ha_state()` — no notification for that message. -/
theorem keyerror_suppresses_notification :
    (handle_event ⟨"SPK_LIST_VIEW_INFO", { b_powerstatus := some false }⟩
      initState).2 = false := by
  decide

/-- Claim C7 (amended): a message whose kind tag is not one of the four
recognized kinds leaves every snapshot field unchanged, raises no error,
and still invokes the state-changed notification; moreover the notification
is invoked after every message *except* an `SPK_LIST_VIEW_INFO` message
whose payload contains key `b_powerstatus` but not key `b_power_status`,
on which the handler's `KeyError` suppresses it. -/
theorem handle_event_unrecognized_and_notification (r : Response) (s : LGState) :
    (r.msg ≠ "EQ_VIEW_INFO" → r.msg ≠ "SPK_LIST_VIEW_INFO" →
      r.msg ≠ "FUNC_VIEW_INFO" → r.msg ≠ "SETTING_VIEW_INFO" →
      handle_event r s = (s, true)) ∧
    ((handle_event r s).2 = false ↔
      r.msg = "SPK_LIST_VIEW_INFO" ∧ r.data.b_powerstatus.isSome = true ∧
        r.data.b_power_status = none) := by
  rcases r with ⟨m, d⟩
  refine ⟨fun h1 h2 h3 h4 => handle_event_not_recognized ⟨m, d⟩ s h1 h2 h3 h4, ?_⟩
  by_cases h1 : m = "EQ_VIEW_INFO"
  · simp [handle_event_eq_view, h1]
  by_cases h2 : m = "SPK_LIST_VIEW_INFO"
  · subst h2
    rw [handle_event_spk_view]
    unfold handle_spk_list_view_info_event
    cases hp : d.b_powerstatus <;> cases hv : d.b_power_status <;>
      simp [hp, hv]
    rename_i b
    cases b <;> simp
  by_cases h3 : m = "FUNC_VIEW_INFO"
  · simp [handle_event_func_view, h3, h2]
  by_cases h4 : m = "SETTING_VIEW_INFO"
  · simp [handle_event_setting_view, h4, h2]
  · simp [handle_event_not_recognized ⟨m, d⟩ s h1 h2 h3 h4, h2]

theorem handle_event_unrecognized_and_notification_witness :
    handle_event ⟨"WEIRD", {}⟩ initState = (initState, true) :=
  (handle_event_unrecognized_and_notification ⟨"WEIRD", {}⟩ initState).1
    (by decide) (by decide) (by decide) (by decide)

/-- Claim C3 is false as stated: for `level = 1/2` and `volume_max = 3`
the command carries `int(1.5) = 1`, while `round(level * volume_max) = 2`
— the source truncates with `int()`, it does not round. -/
theorem set_volume_level_truncates_not_rounds :
    set_volume_level 3 (1 / 2) = Command.setVolume 1 ∧
      (round ((1 / 2 : ℚ) * (3 : ℚ)) : ℤ) = 2 ∧
      (0 : ℚ) ≤ 1 / 2 ∧ (1 / 2 : ℚ) ≤ 1 ∧
      Command.setVolume 1 ≠ Command.setVolume 2 := by
  refine ⟨?_, ?_, by norm_num, by norm_num, by decide⟩
  · norm_num [set_volume_level, pyInt]
  · norm_num [round_eq]

/-- Claim C3 (amended): for every level in `[0,1]` and `volume_max ≥ 0`,
`set_volume_level` sends a volume command whose integer argument is
`level * volume_max` truncated toward zero — the floor for these
nonnegative inputs; in particular, when `volume_max` is `0` the command
carries volume `0`. -/
theorem set_volume_level_floor (level : ℚ) (vmax : Int)
    (h0 : 0 ≤ level) (_h1 : level ≤ 1) (hm : 0 ≤ vmax) :
    set_volume_level vmax level = Command.setVolume ⌊level * (vmax : ℚ)⌋ ∧
      (vmax = 0 → set_volume_level vmax level = Command.setVolume 0) := by
  have hq : (0 : ℚ) ≤ level * (vmax : ℚ) :=
    mul_nonneg h0 (by exact_mod_cast hm)
  constructor
  · simp [set_volume_level, pyInt, if_pos hq]
  · rintro rfl
    norm_num [set_volume_level, pyInt]

theorem set_volume_level_floor_witness :
    set_volume_level 3 (1 / 2) = Command.setVolume 1 :=
  ((set_volume_level_floor (1 / 2) 3 (by norm_num) (by norm_num)
      (by norm_num)).1).trans (by norm_num)

/-- Claim C4 is false as stated: from the initial snapshot, an
`SPK_LIST_VIEW_INFO` event with `{i_vol: 5, i_vol_max: 2}` produces a
snapshot with `volume = 5 ≥ 0` and `volume_max = 2 > 0` whose
`volume_level` is `5/2 ∉ [0,1]` — nothing clamps `volume` to
`volume_max`. -/
theorem volume_level_exceeds_one_when_volume_above_max :
    (applyEvent ⟨"SPK_LIST_VIEW_INFO",
        { i_vol := some 5, i_vol_max := some 2 }⟩ initState).volume = 5 ∧
    (applyEvent ⟨"SPK_LIST_VIEW_INFO",
        { i_vol := some 5, i_vol_max := some 2 }⟩ initState).volume_max = 2 ∧
    volume_level (applyEvent ⟨"SPK_LIST_VIEW_INFO",
        { i_vol := some 5, i_vol_max := some 2 }⟩ initState) = 5 / 2 ∧
    ¬ (5 / 2 : ℚ) ≤ 1 := by
  have hs : applyEvent ⟨"SPK_LIST_VIEW_INFO",
      { i_vol := some 5, i_vol_max := some 2 }⟩ initState =
      { initState with volume := 5, volume_max := 2 } := by decide
  refine ⟨by decide, by decide, ?_, by norm_num⟩
  rw [hs]
  norm_num [volume_level, initState]

/-- Claim C4 (amended): for every snapshot with `volume ≥ 0`:
if `volume_max > 0` *and* `volume ≤ volume_max` then `volume_level()` is in
`[0,1]`, and if `volume_max = 0` then `volume_level()` is `0`. -/
theorem volume_level_bounds (s : LGState) (hv : 0 ≤ s.volume) :
    (0 < s.volume_max → s.volume ≤ s.volume_max →
      0 ≤ volume_level s ∧ volume_level s ≤ 1) ∧
    (s.volume_max = 0 → volume_level s = 0) := by
  constructor
  · intro hm hle
    have hm0 : s.volume_max ≠ 0 := ne_of_gt hm
    have hmq : (0 : ℚ) < (s.volume_max : ℚ) := by exact_mod_cast hm
    have hvl : volume_level s = (s.volume : ℚ) / (s.volume_max : ℚ) := by
      simp [volume_level, hm0]
    rw [hvl]
    constructor
    · exact div_nonneg (by exact_mod_cast hv) hmq.le
    · rw [div_le_one hmq]
      exact_mod_cast hle
  · intro h0
    simp [volume_level, h0]

theorem volume_level_bounds_witness :
    0 ≤ volume_level { initState with volume := 1, volume_max := 2 } ∧
      volume_level { initState with volume := 1, volume_max := 2 } ≤ 1 :=
  (volume_level_bounds { initState with volume := 1, volume_max := 2 }
      (by decide)).1 (by decide) (by decide)

theorem collectNames_mem (tbl : List String) (idxs : List Int)
    (l : List String) (h : collectNames tbl idxs = some l) (x : String)
    (hx : x ∈ l) :
    ∃ i ∈ idxs, i < (tbl.length : Int) ∧ pyListGet tbl i = some x := by
  induction idxs generalizing l with
  | nil =>
      simp only [collectNames, Option.some.injEq] at h
      subst h
      simp at hx
  | cons i rest ih =>
      rw [collectNames] at h
      by_cases hi : i < (tbl.length : Int)
      · rw [if_pos hi] at h
        cases hg : pyListGet tbl i with
        | none =>
            rw [hg] at h
            simp at h
        | some name =>
            rw [hg] at h
            cases hc : collectNames tbl rest with
            | none =>
                rw [hc] at h
                simp at h
            | some tail =>
                rw [hc] at h
                simp only [Option.map_some', Option.some.injEq] at h
                subst h
                rcases List.mem_cons.mp hx with hxn | hxt
                · subst hxn
                  exact ⟨i, List.mem_cons_self i rest, hi, hg⟩
                · obtain ⟨j, hj, hjlt, hjget⟩ := ih tail hc hxt
                  exact ⟨j, List.mem_cons_of_mem i hj, hjlt, hjget⟩
      · rw [if_neg hi] at h
        obtain ⟨j, hj, hjlt, hjget⟩ := ih l h hx
        exact ⟨j, List.mem_cons_of_mem i hj, hjlt, hjget⟩

/-- Claim C5 is false as stated: from the initial snapshot, an
`EQ_VIEW_INFO` event with `ai_eq_list: [-1]` stores the single index `-1`;
with the two-entry table, `sound_mode_list` nevertheless returns an entry —
the one at Python index `-1`, the last table entry — although `-1` is
outside the table's bounds: the guard `equaliser < len(table)` admits
negative indices, which wrap around. -/
theorem sound_mode_list_negative_index_wraps :
    (applyEvent ⟨"EQ_VIEW_INFO", { ai_eq_list := some [-1] }⟩
        initState).equalisers = [-1] ∧
    sound_mode_list ["a", "b"]
        (applyEvent ⟨"EQ_VIEW_INFO", { ai_eq_list := some [-1] }⟩ initState) =
      some ["b"] ∧
    ¬ (0 : Int) ≤ -1 := by
  decide

/-- Claim C5 (amended): whenever `sound_mode_list` (resp. `source_list`)
returns a list, that list is lexicographically sorted and each entry is
derived, via Python indexing, from some stored index `i` with
`i < len(table)` — indices `≥ len(table)` contribute no entry, but negative
indices `≥ -len(table)` contribute the wrap-around entry
`table[len(table) + i]`, and indices below `-len(table)` make the property
raise `IndexError` instead of returning a list. -/
theorem mode_lists_sorted_and_from_stored_indices
    (equalisers_table functions_table : List String) (s : LGState) :
    (∀ ms, sound_mode_list equalisers_table s = some ms →
      ms.Sorted (· ≤ ·) ∧
        ∀ x ∈ ms, ∃ i ∈ s.equalisers,
          i < (equalisers_table.length : Int) ∧
            pyListGet equalisers_table i = some x) ∧
    (∀ srcs, source_list functions_table s = some srcs →
      srcs.Sorted (· ≤ ·) ∧
        ∀ x ∈ srcs, ∃ i ∈ s.functions,
          i < (functions_table.length : Int) ∧
            pyListGet functions_table i = some x) := by
  constructor
  · intro ms h
    obtain ⟨l, hl, hms⟩ := Option.map_eq_some'.mp h
    subst hms
    refine ⟨List.sorted_insertionSort _ l, ?_⟩
    intro x hx
    exact collectNames_mem equalisers_table s.equalisers l hl x
      ((List.mem_insertionSort _).mp hx)
  · intro srcs h
    obtain ⟨l, hl, hsrcs⟩ := Option.map_eq_some'.mp h
    subst hsrcs
    refine ⟨List.sorted_insertionSort _ l, ?_⟩
    intro x hx
    exact collectNames_mem functions_table s.functions l hl x
      ((List.mem_insertionSort _).mp hx)

theorem mode_lists_sorted_and_from_stored_indices_witness :
    (["b"] : List String).Sorted (· ≤ ·) :=
  (((mode_lists_sorted_and_from_stored_indices ["b", "a"] ["b", "a"]
      { initState with equalisers := [0], functions := [0] }).1)
    ["b"] (by decide)).1
